import Mathlib

/-!
Verification development for the terrain-synthesis core of the 2.5D Lands
repository (src/World.cpp, src/src/Noise.cpp, include/GameConstants.h,
DataTypes.h).  The C++ float arithmetic is embedded over the exact rationals;
branch structure, clamps and threshold constants are translated literally
from the source.
-/

namespace DLands

/-! Constants from GameConstants.h. -/

def WORLD_WIDTH : ℕ := 128

def WORLD_HEIGHT : ℕ := 128

def WATER_LEVEL : ℚ := 20

def BEACH_LEVEL : ℚ := 23

def PLAINS_LEVEL : ℚ := 35

def HILLS_LEVEL : ℚ := 50

def MOUNTAIN_LEVEL : ℚ := 70

def CONTINENT_OCTAVES : ℤ := 4

def TERRAIN_OCTAVES : ℤ := 6

def RIVER_OCTAVES : ℤ := 2

def RIVER_THRESHOLD : ℚ := 41 / 50

/-! Data model from DataTypes.h. -/

/-- BiomeType enum from DataTypes.h. -/
inductive BiomeType where
  | DEEP_WATER
  | SHALLOW_WATER
  | BEACH
  | PLAINS
  | FOREST
  | HILLS
  | MOUNTAINS
  | SNOW_CAPS
deriving DecidableEq, Repr

/-- SDL_Color: four 8-bit channels, modelled as integers (all stored values
are produced already clamped to 0..255 by the source). -/
structure Color where
  r : ℤ
  g : ℤ
  b : ℤ
  a : ℤ
deriving DecidableEq, Repr

/-- BiomeProperties struct from DataTypes.h. -/
structure BiomeProperties where
  baseColor : Color
  heightModifier : ℚ
  roughness : ℚ
  walkable : Bool
deriving DecidableEq, Repr

/-- TerrainData struct from DataTypes.h (the biome field is assigned only in
pass 4 and is kept out of the intermediate record). -/
structure TerrainData where
  elevation : ℚ
  moisture : ℚ
  riverValue : ℚ
deriving DecidableEq, Repr

/-- Tile struct from DataTypes.h. -/
structure Tile where
  x : ℕ
  y : ℕ
  elevation : ℤ
  color : Color
  walkable : Bool
deriving DecidableEq, Repr

instance : Inhabited Tile := ⟨⟨0, 0, 0, ⟨0, 0, 0, 0⟩, false⟩⟩

/-- DetermineBiome from src/World.cpp lines 32-60, translated branch for
branch (including the duplicated moisture branches of the Plains band). -/
def DetermineBiome (elevation moisture : ℚ) : BiomeType :=
  if elevation < WATER_LEVEL - 5 then .DEEP_WATER
  else if elevation < WATER_LEVEL then .SHALLOW_WATER
  else if elevation < BEACH_LEVEL then .BEACH
  else if elevation < PLAINS_LEVEL then
    (if moisture < 3 / 10 then .PLAINS
     else if moisture < 3 / 5 then .PLAINS
     else .FOREST)
  else if elevation < HILLS_LEVEL then
    (if moisture < 2 / 5 then .HILLS else .FOREST)
  else if elevation < MOUNTAIN_LEVEL then .MOUNTAINS
  else .SNOW_CAPS

/-- The spec's biome threshold table (section "Biome classification"),
written from the spec's words, to be compared with DetermineBiome. -/
def classifyBiomeSpec (e m : ℚ) : BiomeType :=
  if e < WATER_LEVEL - 5 then .DEEP_WATER
  else if e < WATER_LEVEL then .SHALLOW_WATER
  else if e < BEACH_LEVEL then .BEACH
  else if e < PLAINS_LEVEL then (if 3 / 5 ≤ m then .FOREST else .PLAINS)
  else if e < HILLS_LEVEL then (if 2 / 5 ≤ m then .FOREST else .HILLS)
  else if e < MOUNTAIN_LEVEL then .MOUNTAINS
  else .SNOW_CAPS

/-- CreateBiomeProperties from src/World.cpp lines 63-74: the map holds all
eight keys, so the .at lookup is a total function of the biome. -/
def CreateBiomeProperties : BiomeType → BiomeProperties
  | .DEEP_WATER => ⟨⟨0, 64, 220, 255⟩, 3 / 10, 1 / 10, false⟩
  | .SHALLOW_WATER => ⟨⟨0, 128, 255, 255⟩, 1 / 2, 1 / 5, false⟩
  | .BEACH => ⟨⟨240, 220, 180, 255⟩, 3 / 5, 1 / 5, true⟩
  | .PLAINS => ⟨⟨100, 210, 100, 255⟩, 1, 3 / 10, true⟩
  | .FOREST => ⟨⟨21, 120, 35, 255⟩, 11 / 10, 2 / 5, true⟩
  | .HILLS => ⟨⟨90, 160, 90, 255⟩, 6 / 5, 3 / 5, true⟩
  | .MOUNTAINS => ⟨⟨150, 140, 130, 255⟩, 3 / 2, 4 / 5, false⟩
  | .SNOW_CAPS => ⟨⟨255, 255, 255, 255⟩, 8 / 5, 9 / 10, false⟩

/-- The riverStrength local of Pass 2 (src/World.cpp line 115). -/
def riverStrength (d : TerrainData) : ℚ :=
  (d.riverValue - RIVER_THRESHOLD) / (1 - RIVER_THRESHOLD)

/-- The river-carving part of Pass 2 (src/World.cpp lines 114-120): the main
carve clamp and, nested inside it, the tributary clamp. -/
def pass2RiverElev (d : TerrainData) : ℚ :=
  if d.riverValue > RIVER_THRESHOLD then
    (if d.riverValue > RIVER_THRESHOLD - 1 / 10 ∧ d.riverValue ≤ RIVER_THRESHOLD then
      min (min d.elevation (WATER_LEVEL - riverStrength d * 5)) (WATER_LEVEL - 1)
    else min d.elevation (WATER_LEVEL - riverStrength d * 5))
  else d.elevation

/-- Pass 2 of GenerateWorld (src/World.cpp lines 111-125): river carving and
tributary clamp, then the lake clamp, applied in source order to one cell's
TerrainData (data.elevation is mutated in place, so the lake test reads the
already-carved elevation). -/
def pass2Elev (d : TerrainData) : ℚ :=
  if pass2RiverElev d < WATER_LEVEL + 5 ∧ d.moisture > 7 / 10 then
    min (pass2RiverElev d) (WATER_LEVEL - 2)
  else pass2RiverElev d

/-- C9: DetermineBiome is total and agrees with the spec's threshold table
everywhere, boundary values included: below WATER_LEVEL-5 DeepWater, then
ShallowWater, Beach below BEACH_LEVEL, Forest iff moisture >= 0.6 in the
[BEACH_LEVEL, PLAINS_LEVEL) band (otherwise Plains), Forest iff moisture
>= 0.4 in the [PLAINS_LEVEL, HILLS_LEVEL) band (otherwise Hills), then
Mountains below MOUNTAIN_LEVEL and SnowCaps above. -/
theorem determineBiome_matches_spec (e m : ℚ) :
    DetermineBiome e m = classifyBiomeSpec e m := by
  unfold DetermineBiome classifyBiomeSpec
  split_ifs <;> first | rfl | linarith

/-- C8: Pass 2 is monotone non-increasing: every branch only ever lowers a
cell's elevation via min, so the post-pass elevation is at most the Pass-1
elevation. -/
theorem pass2_monotone (d : TerrainData) : pass2Elev d ≤ d.elevation := by
  have hriver : pass2RiverElev d ≤ d.elevation := by
    unfold pass2RiverElev
    split_ifs
    · exact le_trans (min_le_left _ _) (min_le_left _ _)
    · exact min_le_left _ _
    · exact le_refl _
  unfold pass2Elev
  split_ifs
  · exact le_trans (min_le_left _ _) hriver
  · exact hriver

/-- C1: the tributary clamp of Pass 2 is dead code.  The cell below has
riverValue = RIVER_THRESHOLD = 0.82, which lies in the claimed half-open
tributary band (RIVER_THRESHOLD - 0.1, RIVER_THRESHOLD], elevation 50 and
moisture 0; Pass 2 leaves its elevation at 50, strictly above
WATER_LEVEL - 1 = 19, because the tributary branch is nested under
riverValue > RIVER_THRESHOLD yet itself requires riverValue <=
RIVER_THRESHOLD and therefore can never fire. -/
theorem pass2_tributary_band_dead :
    RIVER_THRESHOLD - 1 / 10 < (⟨50, 0, RIVER_THRESHOLD⟩ : TerrainData).riverValue ∧
    (⟨50, 0, RIVER_THRESHOLD⟩ : TerrainData).riverValue ≤ RIVER_THRESHOLD ∧
    pass2Elev ⟨50, 0, RIVER_THRESHOLD⟩ = 50 ∧
    WATER_LEVEL - 1 < pass2Elev ⟨50, 0, RIVER_THRESHOLD⟩ := by
  refine ⟨by norm_num [RIVER_THRESHOLD], by norm_num, ?_, ?_⟩ <;>
    norm_num [pass2Elev, pass2RiverElev, riverStrength, RIVER_THRESHOLD, WATER_LEVEL]

/-! Pass 3: neighborhood smoothing (src/World.cpp lines 127-150). -/

/-- The inclusive index list a..b traversed by a C++ loop
for (i = a; i <= b; ++i); empty when b < a. -/
def iccList (a b : ℕ) : List ℕ := (List.range (b + 1 - a)).map (a + ·)

/-- The nested accumulation loops of Pass 3 (src/World.cpp lines 130-137):
total += elevation and count++ over ny in [max(0, y-1), min(127, y+1)] and
nx in [max(0, x-1), min(127, x+1)]; max(0, i-1) is natural subtraction
i - 1 on the nonnegative loop indices. -/
def pass3TotalCount (e : ℕ → ℕ → ℚ) (y x : ℕ) : ℚ × ℕ :=
  (iccList (y - 1) (min (WORLD_HEIGHT - 1) (y + 1))).foldl
    (fun acc ny =>
      (iccList (x - 1) (min (WORLD_WIDTH - 1) (x + 1))).foldl
        (fun acc2 nx => (acc2.1 + e ny nx, acc2.2 + 1)) acc)
    (0, 0)

/-- Pass 3 smoothing of one cell (src/World.cpp lines 138-142), reading only
the pre-pass elevation grid e (the source writes into the separate
smoothedElevation buffer): cells at or below WATER_LEVEL are copied
unchanged, others get (total / count) * 0.7 + own * 0.3. -/
def smoothedElevation (e : ℕ → ℕ → ℚ) (y x : ℕ) : ℚ :=
  if e y x ≤ WATER_LEVEL then e y x
  else ((pass3TotalCount e y x).1 / (((pass3TotalCount e y x).2 : ℕ) : ℚ)) * (7 / 10)
    + e y x * (3 / 10)

/-- The 3x3 neighborhood of (y, x) clamped to grid bounds, as a Finset
(the spec's formulation of the Pass 3 kernel). -/
def neighborhood (y x : ℕ) : Finset (ℕ × ℕ) :=
  Finset.Icc (y - 1) (min (WORLD_HEIGHT - 1) (y + 1)) ×ˢ
    Finset.Icc (x - 1) (min (WORLD_WIDTH - 1) (x + 1))

lemma foldl_acc_pair (l : List ℕ) (f : ℕ → ℚ) (k : ℕ) (init : ℚ × ℕ) :
    l.foldl (fun a i => (a.1 + f i, a.2 + k)) init
      = (init.1 + (l.map f).sum, init.2 + l.length * k) := by
  induction l generalizing init with
  | nil => simp
  | cons hd tl ih =>
      rw [List.foldl_cons, ih]
      rw [Prod.ext_iff]
      constructor
      · simp [add_assoc]
      · simp [Nat.succ_mul]
        omega

lemma range_map_sum (n : ℕ) (g : ℕ → ℚ) :
    ((List.range n).map g).sum = ∑ i in Finset.range n, g i := by
  induction n with
  | zero => simp
  | succ m ih => rw [List.range_succ, Finset.sum_range_succ]; simp [ih]

lemma iccList_map_sum (a b : ℕ) (f : ℕ → ℚ) :
    ((iccList a b).map f).sum = ∑ i in Finset.Icc a b, f i := by
  rw [← Nat.Ico_succ_right, Finset.sum_Ico_eq_sum_range, iccList, List.map_map]
  rw [range_map_sum]
  rfl

lemma iccList_length (a b : ℕ) : (iccList a b).length = (Finset.Icc a b).card := by
  simp [iccList, Nat.card_Icc]

/-- The Pass 3 loop accumulators equal the Finset sum and cardinality of the
clamped neighborhood. -/
lemma pass3TotalCount_eq (e : ℕ → ℕ → ℚ) (y x : ℕ) :
    pass3TotalCount e y x
      = (∑ p in neighborhood y x, e p.1 p.2, (neighborhood y x).card) := by
  have hrow : ∀ (init : ℚ × ℕ) (ny : ℕ),
      (iccList (x - 1) (min (WORLD_WIDTH - 1) (x + 1))).foldl
          (fun acc2 nx => (acc2.1 + e ny nx, acc2.2 + 1)) init
        = (init.1 + ∑ nx in Finset.Icc (x - 1) (min (WORLD_WIDTH - 1) (x + 1)), e ny nx,
           init.2 + (Finset.Icc (x - 1) (min (WORLD_WIDTH - 1) (x + 1))).card) := by
    intro init ny
    rw [foldl_acc_pair, iccList_map_sum, iccList_length, mul_one]
  unfold pass3TotalCount
  simp only [hrow]
  rw [foldl_acc_pair, iccList_map_sum, iccList_length]
  rw [neighborhood, Finset.sum_product, Finset.card_product]
  simp

lemma card_Icc_clamped (i : ℕ) (h : i < 128) :
    (Finset.Icc (i - 1) (min 127 (i + 1))).card = if i = 0 ∨ i = 127 then 2 else 3 := by
  rw [Nat.card_Icc]
  split_ifs <;> omega

/-- C7: Pass 3 reads only the pre-pass grid e; a cell whose pre-pass
elevation is at most WATER_LEVEL is left exactly unchanged, and any other
cell becomes 0.7 times the mean of its 3x3 neighborhood clamped to grid
bounds (taken from pre-pass values) plus 0.3 times its own pre-pass
elevation, the neighborhood having 9 cells in the interior, 6 on edges and
4 at corners. -/
theorem pass3_smoothing_spec (e : ℕ → ℕ → ℚ) (y x : ℕ)
    (hy : y < WORLD_HEIGHT) (hx : x < WORLD_WIDTH) :
    (e y x ≤ WATER_LEVEL → smoothedElevation e y x = e y x) ∧
    (WATER_LEVEL < e y x →
      smoothedElevation e y x
        = ((∑ p in neighborhood y x, e p.1 p.2) / ((neighborhood y x).card : ℚ)) * (7 / 10)
          + e y x * (3 / 10)) ∧
    (0 < y → y < WORLD_HEIGHT - 1 → 0 < x → x < WORLD_WIDTH - 1 →
      (neighborhood y x).card = 9) ∧
    ((y = 0 ∨ y = WORLD_HEIGHT - 1) → (x = 0 ∨ x = WORLD_WIDTH - 1) →
      (neighborhood y x).card = 4) ∧
    ((((y = 0 ∨ y = WORLD_HEIGHT - 1) ∧ 0 < x ∧ x < WORLD_WIDTH - 1) ∨
      ((x = 0 ∨ x = WORLD_WIDTH - 1) ∧ 0 < y ∧ y < WORLD_HEIGHT - 1)) →
      (neighborhood y x).card = 6) := by
  have hcard : (neighborhood y x).card
      = (Finset.Icc (y - 1) (min (WORLD_HEIGHT - 1) (y + 1))).card *
        (Finset.Icc (x - 1) (min (WORLD_WIDTH - 1) (x + 1))).card :=
    Finset.card_product _ _
  have hy' : y < 128 := hy
  have hx' : x < 128 := hx
  have hycard := card_Icc_clamped y hy'
  have hxcard := card_Icc_clamped x hx'
  refine ⟨fun h => by simp [smoothedElevation, h], fun h => ?_, ?_, ?_, ?_⟩
  · rw [smoothedElevation, if_neg (not_le.mpr h), pass3TotalCount_eq]
  · intro h1 h2 h3 h4
    rw [hcard]
    simp only [WORLD_HEIGHT, WORLD_WIDTH] at *
    rw [hycard, hxcard]
    rw [if_neg (by omega), if_neg (by omega)]
  · intro h1 h2
    rw [hcard]
    simp only [WORLD_HEIGHT, WORLD_WIDTH] at *
    rw [hycard, hxcard, if_pos (by omega), if_pos (by omega)]
  · intro h1
    rw [hcard]
    simp only [WORLD_HEIGHT, WORLD_WIDTH] at *
    rcases h1 with ⟨hb, hx1, hx2⟩ | ⟨hb, hy1, hy2⟩
    · rw [hycard, hxcard, if_pos (by omega), if_neg (by omega)]
    · rw [hycard, hxcard, if_neg (by omega), if_pos (by omega)]

/-- Constant pre-pass grid used to witness pass3_smoothing_spec. -/
def constGrid25 : ℕ → ℕ → ℚ := fun _ _ => 25

/-- Witness for C7 at the interior cell (5, 5) of a constant grid. -/
theorem pass3_smoothing_spec_witness :
    5 < WORLD_HEIGHT ∧ 5 < WORLD_WIDTH ∧
    ((constGrid25 5 5 ≤ WATER_LEVEL → smoothedElevation constGrid25 5 5 = constGrid25 5 5) ∧
     (WATER_LEVEL < constGrid25 5 5 →
       smoothedElevation constGrid25 5 5
         = ((∑ p in neighborhood 5 5, constGrid25 p.1 p.2) / ((neighborhood 5 5).card : ℚ)) * (7 / 10)
           + constGrid25 5 5 * (3 / 10)) ∧
     (0 < 5 → 5 < WORLD_HEIGHT - 1 → 0 < 5 → 5 < WORLD_WIDTH - 1 →
       (neighborhood 5 5).card = 9) ∧
     ((5 = 0 ∨ 5 = WORLD_HEIGHT - 1) → (5 = 0 ∨ 5 = WORLD_WIDTH - 1) →
       (neighborhood 5 5).card = 4) ∧
     ((((5 = 0 ∨ 5 = WORLD_HEIGHT - 1) ∧ 0 < 5 ∧ 5 < WORLD_WIDTH - 1) ∨
       ((5 = 0 ∨ 5 = WORLD_WIDTH - 1) ∧ 0 < 5 ∧ 5 < WORLD_HEIGHT - 1)) →
       (neighborhood 5 5).card = 6)) :=
  ⟨by norm_num [WORLD_HEIGHT], by norm_num [WORLD_WIDTH],
    pass3_smoothing_spec constGrid25 5 5 (by norm_num [WORLD_HEIGHT]) (by norm_num [WORLD_WIDTH])⟩

/-- Helper: a river cell leaves the carving step strictly below WATER_LEVEL. -/
lemma pass2RiverElev_lt_water (d : TerrainData) (h : d.riverValue > RIVER_THRESHOLD) :
    pass2RiverElev d < WATER_LEVEL := by
  have hden : (0 : ℚ) < 1 - RIVER_THRESHOLD := by norm_num [RIVER_THRESHOLD]
  have hs : 0 < riverStrength d := div_pos (by unfold RIVER_THRESHOLD at *; linarith) hden
  rw [pass2RiverElev, if_pos h]
  split_ifs
  · calc min (min d.elevation (WATER_LEVEL - riverStrength d * 5)) (WATER_LEVEL - 1)
        ≤ WATER_LEVEL - 1 := min_le_right _ _
      _ < WATER_LEVEL := by norm_num
  · calc min d.elevation (WATER_LEVEL - riverStrength d * 5)
        ≤ WATER_LEVEL - riverStrength d * 5 := min_le_right _ _
      _ < WATER_LEVEL := by linarith

/-- Helper: a river cell leaves all of Pass 2 strictly below WATER_LEVEL. -/
lemma pass2Elev_lt_water (d : TerrainData) (h : d.riverValue > RIVER_THRESHOLD) :
    pass2Elev d < WATER_LEVEL := by
  have hr := pass2RiverElev_lt_water d h
  rw [pass2Elev]
  split_ifs
  · exact lt_of_le_of_lt (min_le_left _ _) hr
  · exact hr

/-- C10: any cell whose Pass-1 riverValue exceeds RIVER_THRESHOLD leaves
Pass 2 strictly below WATER_LEVEL, is therefore left unchanged by Pass 3
smoothing, and in Pass 4 is classified DeepWater or ShallowWater, whose
biome properties mark the tile not walkable. -/
theorem river_cells_end_below_water (t1 : ℕ → ℕ → TerrainData) (y x : ℕ)
    (h : (t1 y x).riverValue > RIVER_THRESHOLD) :
    smoothedElevation (fun a b => pass2Elev (t1 a b)) y x < WATER_LEVEL ∧
    (DetermineBiome (smoothedElevation (fun a b => pass2Elev (t1 a b)) y x)
        (t1 y x).moisture = BiomeType.DEEP_WATER ∨
     DetermineBiome (smoothedElevation (fun a b => pass2Elev (t1 a b)) y x)
        (t1 y x).moisture = BiomeType.SHALLOW_WATER) ∧
    (CreateBiomeProperties
        (DetermineBiome (smoothedElevation (fun a b => pass2Elev (t1 a b)) y x)
          (t1 y x).moisture)).walkable = false := by
  have h2 : pass2Elev (t1 y x) < WATER_LEVEL := pass2Elev_lt_water (t1 y x) h
  have h3 : smoothedElevation (fun a b => pass2Elev (t1 a b)) y x = pass2Elev (t1 y x) := by
    rw [smoothedElevation, if_pos (le_of_lt h2)]
  rw [h3]
  refine ⟨h2, ?_⟩
  rw [DetermineBiome]
  split_ifs with hdeep <;>
    first
      | exact ⟨Or.inl rfl, rfl⟩
      | exact ⟨Or.inr rfl, rfl⟩

/-- Constant Pass-1 grid used to witness river_cells_end_below_water. -/
def constRiverGrid : ℕ → ℕ → TerrainData := fun _ _ => ⟨50, 0, 9 / 10⟩

/-- Witness for C10 at cell (1, 1) of a constant river grid. -/
theorem river_cells_end_below_water_witness :
    (constRiverGrid 1 1).riverValue > RIVER_THRESHOLD ∧
    (smoothedElevation (fun a b => pass2Elev (constRiverGrid a b)) 1 1 < WATER_LEVEL ∧
     (DetermineBiome (smoothedElevation (fun a b => pass2Elev (constRiverGrid a b)) 1 1)
         (constRiverGrid 1 1).moisture = BiomeType.DEEP_WATER ∨
      DetermineBiome (smoothedElevation (fun a b => pass2Elev (constRiverGrid a b)) 1 1)
         (constRiverGrid 1 1).moisture = BiomeType.SHALLOW_WATER) ∧
     (CreateBiomeProperties
         (DetermineBiome (smoothedElevation (fun a b => pass2Elev (constRiverGrid a b)) 1 1)
           (constRiverGrid 1 1).moisture)).walkable = false) :=
  ⟨by norm_num [constRiverGrid, RIVER_THRESHOLD],
    river_cells_end_below_water constRiverGrid 1 1
      (by norm_num [constRiverGrid, RIVER_THRESHOLD])⟩

/-! Noise engine (src/src/Noise.cpp). -/

/-- Fade from src/src/Noise.cpp line 9. -/
def Fade (t : ℚ) : ℚ := t * t * t * (t * (t * 6 - 15) + 10)

/-- Grad from src/src/Noise.cpp lines 13-18.  hash & 15 is hash % 16 on the
nonnegative table values, (h & 1) == 0 is h % 2 = 0, and (h & 2) == 0 is
h / 2 % 2 = 0. -/
def Grad (hash : ℕ) (x y : ℚ) : ℚ :=
  let h := hash % 16
  let u := if h < 8 then x else y
  let v := if h < 4 then y else (if h = 12 ∨ h = 14 then x else 0)
  (if h % 2 = 0 then u else -u) + (if h / 2 % 2 = 0 then v else -v)

/-- Lerp from src/src/Noise.cpp line 20. -/
def Lerp (a b t : ℚ) : ℚ := a + t * (b - a)

/-- The fixed 256-entry base permutation table of PerlinNoise
(src/src/Noise.cpp lines 28-45). -/
def permutation : List ℕ :=
  [151, 160, 137, 91, 90, 15, 131, 13, 201, 95, 96, 53, 194, 233, 7, 225,
   140, 36, 103, 30, 69, 142, 8, 99, 37, 240, 21, 10, 23, 190, 6, 148,
   247, 120, 234, 75, 0, 26, 197, 62, 94, 252, 219, 203, 117, 35, 11, 32,
   57, 177, 33, 88, 237, 149, 56, 87, 174, 20, 125, 136, 171, 168, 68, 175,
   74, 165, 71, 134, 139, 48, 27, 166, 77, 146, 158, 231, 83, 111, 229, 122,
   60, 211, 133, 230, 220, 105, 92, 41, 55, 46, 245, 40, 244, 102, 143, 54,
   65, 25, 63, 161, 1, 216, 80, 73, 209, 76, 132, 187, 208, 89, 18, 169,
   200, 196, 135, 130, 116, 188, 159, 86, 164, 100, 109, 198, 173, 186, 3, 64,
   52, 217, 226, 250, 124, 123, 5, 202, 38, 147, 118, 126, 255, 82, 85, 212,
   207, 206, 59, 227, 47, 16, 58, 17, 182, 189, 28, 42, 223, 183, 170, 213,
   119, 248, 152, 2, 44, 154, 163, 70, 221, 153, 101, 155, 167, 43, 172, 9,
   129, 22, 39, 253, 19, 98, 108, 110, 79, 113, 224, 232, 178, 185, 112, 104,
   218, 246, 97, 228, 251, 34, 242, 193, 238, 210, 144, 12, 191, 179, 162, 241,
   81, 51, 145, 235, 249, 14, 239, 107, 49, 192, 214, 31, 181, 199, 106, 157,
   184, 84, 204, 176, 115, 121, 50, 45, 127, 4, 150, 254, 138, 236, 205, 93,
   222, 114, 67, 29, 24, 72, 243, 141, 128, 195, 78, 66, 215, 61, 156, 180]

/-- One step of the pseudo-random generator driving the modelled shuffle. -/
def lcgNext (s : ℕ) : ℕ := (s * 1103515245 + 12345) % 2147483648

/-- Initial generator state derived from the seed. -/
def seedInit (seed : ℤ) : ℕ := (seed.emod 2147483648).toNat

/-- Swap of two list positions, as used by a Fisher-Yates shuffle pass. -/
def swapAt (l : List ℕ) (i j : ℕ) : List ℕ :=
  (l.set i (l.getD j 0)).set j (l.getD i 0)

/-- Modelled from the spec: the seeded permutation is obtained by
"deterministically shuffling a copy of the gradient table using a seeded
pseudo-random generator" (std::shuffle with std::mt19937(seed),
src/src/Noise.cpp lines 55-57).  The C++ standard library's exact draw
sequence is not part of this repository, so the shuffle is modelled as a
seeded Fisher-Yates pass over the same base table driven by a linear
congruential generator.  What matters for the claims is that it is a
deterministic function of the seed alone, which both the model and the
source algorithm satisfy. -/
def shuffleBySeed (seed : ℤ) : List ℕ :=
  ((List.range 255).foldl
    (fun st k =>
      (swapAt st.1 (k + 1) (lcgNext st.2 % (k + 2)), lcgNext st.2))
    (permutation, seedInit seed)).1

/-- The duplicated 512-entry table p built on a cache miss
(src/src/Noise.cpp lines 59-62): p[i] = p[256 + i] = shuffled[i]. -/
def buildP (seed : ℤ) : List ℕ := shuffleBySeed seed ++ shuffleBySeed seed

/-- Table lookup p[i] (C++ vector indexing; all source indices are in
bounds, so the default value never matters). -/
def lookup (l : List ℕ) (i : ℕ) : ℕ := l.getD i 0

/-- std::floor on the rational embedding (kernel-computable form: Euclidean
division of numerator by denominator). -/
def floorQ (q : ℚ) : ℤ := q.num / (q.den : ℤ)

/-- floorQ is the mathematical floor. -/
lemma floorQ_eq_floor (q : ℚ) : floorQ q = ⌊q⌋ := Rat.floor_def.symm

/-- The arithmetic core of PerlinNoise (src/src/Noise.cpp lines 66-99)
over a given permutation lookup: static_cast of floor with & 255 is the
mathematical mod 256, always nonnegative. -/
def perlinEval (p : ℕ → ℕ) (x y : ℚ) : ℚ :=
  let X := ((floorQ x).emod 256).toNat
  let Y := ((floorQ y).emod 256).toNat
  let xf := x - floorQ x
  let yf := y - floorQ y
  let u := Fade xf
  let v := Fade yf
  let A := p X + Y
  let AA := p A
  let AB := p (A + 1)
  let B := p (X + 1) + Y
  let BA := p B
  let BB := p (B + 1)
  Lerp (Lerp (Grad AA xf yf) (Grad BA (xf - 1) yf) u)
       (Lerp (Grad AB xf (yf - 1)) (Grad BB (xf - 1) (yf - 1)) u) v

/-- The process-wide static cache of PerlinNoise (src/src/Noise.cpp lines
51-52): the 512-entry table p (value-initialized to all zeros) and
lastSeed (initialized to -1). -/
structure NoiseCache where
  lastSeed : ℤ
  p : List ℕ
deriving DecidableEq, Repr

/-- The state of the statics before the first call: lastSeed = -1 and p a
zero-filled vector of 512 ints. -/
def initialCache : NoiseCache := ⟨-1, List.replicate 512 0⟩

/-- PerlinNoise from src/src/Noise.cpp lines 25-100 with its static cache
made explicit: if seed != lastSeed the table is rebuilt from the fixed base
permutation, otherwise the cached table is reused; returns the noise value
and the updated cache. -/
def PerlinNoise (c : NoiseCache) (x y : ℚ) (seed : ℤ) : ℚ × NoiseCache :=
  if seed = c.lastSeed then (perlinEval (lookup c.p) x y, c)
  else (perlinEval (lookup (buildP seed)) x y, ⟨seed, buildP seed⟩)

/-- The value PerlinNoise computes for a seed whose table was (re)built:
a pure function of (x, y, seed). -/
def perlinPure (x y : ℚ) (seed : ℤ) : ℚ := perlinEval (lookup (buildP seed)) x y

/-- The octave loop of LayeredNoise (src/src/Noise.cpp lines 109-114):
n remaining iterations, i the current octave index, then amplitude,
frequency, total and maxValue accumulators. -/
def layeredLoop (x y pers : ℚ) (seed : ℤ) :
    ℕ → ℕ → ℚ → ℚ → ℚ → ℚ → ℚ × ℚ
  | 0, _, _, _, total, maxV => (total, maxV)
  | n + 1, i, amp, freq, total, maxV =>
      layeredLoop x y pers seed n (i + 1) (amp * pers) (freq * 2)
        (total + perlinPure (x * freq) (y * freq) (seed + i) * amp) (maxV + amp)

/-- LayeredNoise from src/src/Noise.cpp lines 103-119 (the variant compiled
by CMakeLists.txt, which guards the final division): octaves is a C++ int,
so a non-positive octave count runs the loop zero times. -/
def LayeredNoise (x y : ℚ) (octaves : ℤ) (pers scale : ℚ) (seed : ℤ) : ℚ :=
  if (layeredLoop x y pers seed octaves.toNat 0 1 scale 0 0).2 > 0 then
    (layeredLoop x y pers seed octaves.toNat 0 1 scale 0 0).1
      / (layeredLoop x y pers seed octaves.toNat 0 1 scale 0 0).2
  else 0

/-- C6: with octaves <= 0 the octave loop contributes nothing, maxValue
stays 0, the maxValue > 0 guard fails and LayeredNoise returns exactly 0
without dividing. -/
theorem layeredNoise_degenerate (x y pers scale : ℚ) (seed octaves : ℤ)
    (h : octaves ≤ 0) :
    (layeredLoop x y pers seed octaves.toNat 0 1 scale 0 0).2 = 0 ∧
    LayeredNoise x y octaves pers scale seed = 0 := by
  have h0 : octaves.toNat = 0 := Int.toNat_of_nonpos h
  rw [LayeredNoise, h0]
  simp [layeredLoop]

/-- Witness for C6 at octaves = -3. -/
theorem layeredNoise_degenerate_witness :
    (-3 : ℤ) ≤ 0 ∧
    ((layeredLoop 1 2 (1 / 2) 7 (-3 : ℤ).toNat 0 1 3 0 0).2 = 0 ∧
     LayeredNoise 1 2 (-3) (1 / 2) 3 7 = 0) :=
  ⟨by norm_num, layeredNoise_degenerate 1 2 (1 / 2) 3 7 (-3) (by norm_num)⟩

/-- C4 counterexample: for hash residues 13 and 15 the v selection of Grad
falls through to 0, so the returned value collapses to -u = -y alone: it is
independent of the x offset (shown at x = 7 and x = 100 with y = 3), with
no nonzero v contribution, contrary to the claim. -/
theorem grad_residues_13_15_collapse :
    Grad 13 7 3 = -3 ∧ Grad 13 100 3 = -3 ∧ Grad 15 7 3 = -3 ∧ Grad 15 100 3 = -3 := by
  refine ⟨?_, ?_, ?_, ?_⟩ <;> norm_num [Grad]

/-- C4 amended: Grad is a deterministic total function of hash mod 16 and
the offsets, covering all 16 residues, but for residues 13 and 15 the v
term is 0 and the value collapses to -u = -y. -/
theorem grad_mod16_total_with_zero_cases (hash : ℕ) (x y : ℚ) :
    Grad hash x y = Grad (hash % 16) x y ∧ Grad 13 x y = -y ∧ Grad 15 x y = -y := by
  refine ⟨?_, ?_, ?_⟩
  · have hmm : hash % 16 % 16 = hash % 16 := by omega
    simp only [Grad, hmm]
  · norm_num [Grad]
  · norm_num [Grad]

/-- The seeded table for seed -1 of the modelled shuffle, precomputed for
the cache-divergence proof (certified below by kernel evaluation). -/
def shuffledM1 : List ℕ :=
  [184, 151, 66, 234, 217, 158, 121, 50, 97, 143, 36, 44, 124, 91, 199, 94,
   246, 96, 198, 128, 61, 242, 176, 47, 76, 244, 59, 160, 177, 101, 180, 142,
   149, 30, 60, 233, 210, 56, 230, 57, 194, 80, 192, 171, 19, 26, 110, 81,
   48, 218, 232, 203, 146, 120, 183, 152, 167, 71, 243, 92, 3, 226, 45, 168,
   10, 115, 29, 201, 182, 55, 90, 133, 117, 68, 52, 23, 43, 181, 93, 166,
   88, 249, 109, 95, 58, 136, 112, 122, 174, 75, 106, 159, 6, 209, 104, 172,
   179, 87, 165, 105, 248, 99, 1, 54, 4, 216, 228, 135, 231, 63, 214, 187,
   85, 170, 138, 78, 173, 238, 28, 223, 211, 196, 207, 229, 82, 221, 178, 205,
   98, 24, 62, 86, 16, 38, 141, 11, 195, 137, 225, 89, 188, 197, 155, 64,
   161, 224, 191, 202, 118, 0, 189, 239, 145, 103, 206, 77, 83, 25, 107, 111,
   22, 251, 153, 13, 131, 208, 34, 49, 35, 240, 65, 186, 162, 132, 219, 156,
   72, 108, 222, 200, 125, 100, 5, 41, 147, 39, 204, 126, 14, 18, 252, 169,
   21, 7, 150, 130, 69, 144, 247, 70, 73, 139, 51, 185, 163, 220, 148, 46,
   37, 164, 102, 113, 74, 213, 227, 127, 15, 134, 236, 253, 140, 40, 114, 255,
   33, 154, 32, 193, 129, 42, 8, 157, 237, 245, 12, 84, 67, 250, 175, 241,
   123, 215, 235, 254, 190, 119, 2, 17, 53, 79, 27, 31, 20, 116, 212, 9]

set_option maxRecDepth 4000

/-- C3 failing input: purity of PerlinNoise fails at seed -1.  The statics
initialize lastSeed to -1 with a zero-filled table, so the very first call
PerlinNoise(0.5, 0.5, -1) falsely hits the cache, reads the zero table and
returns 0, while the same call made after a call with another seed (here
seed 1) rebuilds the seeded table for -1 and returns -1/2: two calls with
identical arguments return different values depending on call history. -/
theorem perlin_first_call_seed_minus_one_diverges :
    (PerlinNoise initialCache (1 / 2) (1 / 2) (-1)).1 = 0 ∧
    (PerlinNoise ((PerlinNoise initialCache (1 / 2) (1 / 2) 1).2) (1 / 2) (1 / 2) (-1)).1
      = -(1 / 2) ∧
    (PerlinNoise ((PerlinNoise initialCache (1 / 2) (1 / 2) 1).2) (1 / 2) (1 / 2) (-1)).1
      < (PerlinNoise initialCache (1 / 2) (1 / 2) (-1)).1 := by
  have hfloor : floorQ (1 / 2 : ℚ) = 0 := by
    rw [floorQ_eq_floor, Int.floor_eq_zero_iff]
    constructor <;> norm_num
  have z0 : lookup initialCache.p 0 = 0 := by decide
  have z1 : lookup initialCache.p 1 = 0 := by decide
  have htbl : shuffleBySeed (-1) = shuffledM1 := by decide
  have ha : (PerlinNoise initialCache (1 / 2) (1 / 2) (-1)).1 = 0 := by
    have h1 : (PerlinNoise initialCache (1 / 2) (1 / 2) (-1)).1
        = perlinEval (lookup initialCache.p) (1 / 2) (1 / 2) := by
      simp [PerlinNoise, initialCache]
    rw [h1]
    simp only [perlinEval, hfloor]
    norm_num [z0, z1]
    norm_num [Grad, Fade, Lerp]
  have hb : (PerlinNoise ((PerlinNoise initialCache (1 / 2) (1 / 2) 1).2)
      (1 / 2) (1 / 2) (-1)).1 = -(1 / 2) := by
    have h2 : (PerlinNoise initialCache (1 / 2) (1 / 2) 1).2 = ⟨1, buildP 1⟩ := by
      simp [PerlinNoise, initialCache]
    rw [h2]
    have h3 : (PerlinNoise (⟨1, buildP 1⟩ : NoiseCache) (1 / 2) (1 / 2) (-1)).1
        = perlinEval (lookup (buildP (-1))) (1 / 2) (1 / 2) := by
      simp [PerlinNoise]
    rw [h3]
    have hl : ∀ i v : ℕ, (shuffledM1 ++ shuffledM1).getD i 0 = v →
        lookup (buildP (-1)) i = v := by
      intro i v h
      rw [lookup, buildP, htbl]
      exact h
    have l0 : lookup (buildP (-1)) 0 = 184 := hl 0 184 (by decide)
    have l1 : lookup (buildP (-1)) 1 = 151 := hl 1 151 (by decide)
    have l184 : lookup (buildP (-1)) 184 = 147 := hl 184 147 (by decide)
    have l185 : lookup (buildP (-1)) 185 = 39 := hl 185 39 (by decide)
    have l151 : lookup (buildP (-1)) 151 = 239 := hl 151 239 (by decide)
    have l152 : lookup (buildP (-1)) 152 = 145 := hl 152 145 (by decide)
    simp only [perlinEval, hfloor]
    norm_num [l0, l1, l184, l185, l151, l152]
    norm_num [Grad, Fade, Lerp]
  refine ⟨ha, hb, ?_⟩
  rw [ha, hb]
  norm_num

/-! Pass 4: finalization (src/World.cpp lines 152-182). -/

/-- std::clamp(v, 0, 255) on the int-promoted channel value
(src/World.cpp lines 175-177). -/
def clampChannel (v : ℤ) : ℤ := max 0 (min 255 v)

/-- The jittered biome color of the final else branch of Pass 4
(src/World.cpp lines 170-179): base color plus a per-channel variation,
each channel clamped to [0, 255], alpha 255.  The three draws of
variation(gen) are the components of the jitter parameter j. -/
def jitteredColor (props : BiomeProperties) (j : ℤ × ℤ × ℤ) : Color :=
  ⟨clampChannel (props.baseColor.r + j.1), clampChannel (props.baseColor.g + j.2.1),
   clampChannel (props.baseColor.b + j.2.2), 255⟩

/-- The color assignment of Pass 4 (src/World.cpp lines 163-180): three
debug-pattern branches (red reference squares, yellow world border, blue
center lines) take precedence over the jittered biome color. -/
def pass4Color (props : BiomeProperties) (x y : ℕ) (j : ℤ × ℤ × ℤ) : Color :=
  if (x + y) % 10 = 0 then ⟨255, 0, 0, 255⟩
  else if x = 0 ∨ y = 0 ∨ x = WORLD_WIDTH - 1 ∨ y = WORLD_HEIGHT - 1 then
    ⟨255, 255, 0, 255⟩
  else if x = WORLD_WIDTH / 2 ∨ y = WORLD_HEIGHT / 2 then ⟨0, 0, 255, 255⟩
  else jitteredColor props j

/-- The jitter values -5..5 drawn by uniform_int_distribution(-5, 5). -/
def jitterRange : List ℤ := (List.range 11).map (fun n => (n : ℤ) - 5)

/-- All eight biome kinds. -/
def allBiomes : List BiomeType :=
  [.DEEP_WATER, .SHALLOW_WATER, .BEACH, .PLAINS, .FOREST, .HILLS, .MOUNTAINS, .SNOW_CAPS]

/-- C5 counterexample: cell (0, 0) matches the debug pattern
(x + y) % 10 == 0 and is colored pure red regardless of the jitter draw,
and pure red is not the clamped jittered base color of any of the eight
biomes for any per-channel jitter in [-5, 5]: a color rule other than
base-plus-jitter is applied to some cells. -/
theorem pass4_debug_pattern_overrides_jitter :
    pass4Color (CreateBiomeProperties BiomeType.PLAINS) 0 0 (0, 0, 0) = ⟨255, 0, 0, 255⟩ ∧
    (allBiomes.all fun b => jitterRange.all fun j1 => jitterRange.all fun j2 =>
      jitterRange.all fun j3 =>
        !(jitteredColor (CreateBiomeProperties b) (j1, j2, j3) == ⟨255, 0, 0, 255⟩)) = true := by
  constructor
  · rfl
  · decide

/-- C5 amended: on every cell that matches none of the three debug patterns
(grid squares with (x + y) % 10 == 0 are red, the world border is yellow,
the two center lines are blue), the Pass 4 color is the biome base color
plus the per-channel jitter, each channel clamped to [0, 255] with alpha
255; the debug-pattern cells instead get those fixed colors. -/
theorem pass4_color_rules (props : BiomeProperties) (x y : ℕ) (j1 j2 j3 : ℤ)
    (hmod : (x + y) % 10 ≠ 0)
    (hx0 : x ≠ 0) (hy0 : y ≠ 0)
    (hx1 : x ≠ WORLD_WIDTH - 1) (hy1 : y ≠ WORLD_HEIGHT - 1)
    (hxm : x ≠ WORLD_WIDTH / 2) (hym : y ≠ WORLD_HEIGHT / 2) :
    pass4Color props x y (j1, j2, j3) = jitteredColor props (j1, j2, j3) ∧
    0 ≤ (jitteredColor props (j1, j2, j3)).r ∧ (jitteredColor props (j1, j2, j3)).r ≤ 255 ∧
    0 ≤ (jitteredColor props (j1, j2, j3)).g ∧ (jitteredColor props (j1, j2, j3)).g ≤ 255 ∧
    0 ≤ (jitteredColor props (j1, j2, j3)).b ∧ (jitteredColor props (j1, j2, j3)).b ≤ 255 ∧
    (jitteredColor props (j1, j2, j3)).a = 255 := by
  refine ⟨?_, ?_⟩
  · rw [pass4Color, if_neg hmod, if_neg (by tauto), if_neg (by tauto)]
  · simp only [jitteredColor, clampChannel]
    refine ⟨le_max_left _ _, ?_, le_max_left _ _, ?_, le_max_left _ _, ?_, trivial⟩ <;> omega

/-- Witness for C5 (amended) at cell (5, 3) with a Forest tile. -/
theorem pass4_color_rules_witness :
    (5 + 3) % 10 ≠ 0 ∧ 5 ≠ 0 ∧ 3 ≠ 0 ∧
    5 ≠ WORLD_WIDTH - 1 ∧ 3 ≠ WORLD_HEIGHT - 1 ∧
    5 ≠ WORLD_WIDTH / 2 ∧ 3 ≠ WORLD_HEIGHT / 2 ∧
    (pass4Color (CreateBiomeProperties BiomeType.FOREST) 5 3 (7, -9, 100)
        = jitteredColor (CreateBiomeProperties BiomeType.FOREST) (7, -9, 100) ∧
     0 ≤ (jitteredColor (CreateBiomeProperties BiomeType.FOREST) (7, -9, 100)).r ∧
     (jitteredColor (CreateBiomeProperties BiomeType.FOREST) (7, -9, 100)).r ≤ 255 ∧
     0 ≤ (jitteredColor (CreateBiomeProperties BiomeType.FOREST) (7, -9, 100)).g ∧
     (jitteredColor (CreateBiomeProperties BiomeType.FOREST) (7, -9, 100)).g ≤ 255 ∧
     0 ≤ (jitteredColor (CreateBiomeProperties BiomeType.FOREST) (7, -9, 100)).b ∧
     (jitteredColor (CreateBiomeProperties BiomeType.FOREST) (7, -9, 100)).b ≤ 255 ∧
     (jitteredColor (CreateBiomeProperties BiomeType.FOREST) (7, -9, 100)).a = 255) :=
  ⟨by decide, by decide, by decide, by decide, by decide, by decide, by decide,
    pass4_color_rules (CreateBiomeProperties BiomeType.FOREST) 5 3 7 (-9) 100
      (by decide) (by decide) (by decide) (by decide) (by decide) (by decide) (by decide)⟩

/-! GenerateWorld (src/World.cpp lines 77-199). -/

/-- Truncation toward zero: static_cast<int> of the float elevation
(src/World.cpp line 159). -/
def truncQ (q : ℚ) : ℤ := if 0 ≤ q then floorQ q else -floorQ (-q)

/-- Pass 1 of GenerateWorld (src/World.cpp lines 84-109) for one cell.  The
float calls std::sqrt and std::pow(., 0.5f) have no exact rational
counterpart, so they are abstract parameters of the embedding;
std::pow(mountain, 3.0f) is cubing. -/
def pass1Cell (sqrtQ powHalf : ℚ → ℚ) (y x : ℕ) : TerrainData :=
  let nx : ℚ := (x : ℚ) / (WORLD_WIDTH : ℚ)
  let ny : ℚ := (y : ℚ) / (WORLD_HEIGHT : ℚ)
  let continentShape := LayeredNoise (nx * (1 / 2)) (ny * (1 / 2)) CONTINENT_OCTAVES (3 / 5) (1 / 2) 1
  let terrainDetail := LayeredNoise (nx * 5) (ny * 5) TERRAIN_OCTAVES (1 / 2) 2 2
  let mountain := (1 - |LayeredNoise (nx * 3) (ny * 3) 4 (7 / 10) (3 / 2) 5 * 2 - 1|) ^ 3
  let moisture := LayeredNoise (nx * 4) (ny * 4) 4 (1 / 2) 2 3
  let riverValue := LayeredNoise (nx * 8) (ny * 8) RIVER_OCTAVES (7 / 10) 3 4
  let dx := nx - 1 / 2
  let dy := ny - 1 / 2
  let islandFactor := powHalf (1 - min 1 (sqrtQ (dx * dx + dy * dy) * 2))
  let elevation := (continentShape * (1 / 2) + terrainDetail * (1 / 5) + mountain * (3 / 10))
    * 100 * (islandFactor * (7 / 10) + 3 / 10)
  ⟨elevation, moisture, riverValue⟩

/-- The elevation grid after Pass 2. -/
def pass2Grid (sqrtQ powHalf : ℚ → ℚ) : ℕ → ℕ → ℚ :=
  fun y x => pass2Elev (pass1Cell sqrtQ powHalf y x)

/-- The elevation of a cell after Pass 3. -/
def finalElev (sqrtQ powHalf : ℚ → ℚ) (y x : ℕ) : ℚ :=
  smoothedElevation (pass2Grid sqrtQ powHalf) y x

/-- The finished tile of Pass 4 (src/World.cpp lines 152-181). -/
def tileAt (sqrtQ powHalf : ℚ → ℚ) (jitter : ℕ → ℕ → ℤ × ℤ × ℤ) (y x : ℕ) : Tile :=
  ⟨x, y, truncQ (finalElev sqrtQ powHalf y x),
    pass4Color
      (CreateBiomeProperties
        (DetermineBiome (finalElev sqrtQ powHalf y x) (pass1Cell sqrtQ powHalf y x).moisture))
      x y (jitter y x),
    (CreateBiomeProperties
      (DetermineBiome (finalElev sqrtQ powHalf y x)
        (pass1Cell sqrtQ powHalf y x).moisture)).walkable⟩

/-- GenerateWorld from src/World.cpp lines 77-199: a nullary entry point
over the fixed WORLD_HEIGHT x WORLD_WIDTH grid (the abstract square-root,
power and jitter sources are explicit parameters of the embedding). -/
def GenerateWorld (sqrtQ powHalf : ℚ → ℚ) (jitter : ℕ → ℕ → ℤ × ℤ × ℤ) :
    List (List Tile) :=
  (List.range WORLD_HEIGHT).map fun y =>
    (List.range WORLD_WIDTH).map fun x => tileAt sqrtQ powHalf jitter y x

/-- The only error kind named by the spec. -/
inductive GenError where
  | InvalidDimension
deriving DecidableEq, Repr

/-- Modelled from the spec: the claimed entry point signature
generateWorld(width, height, seed) rejects width or height at most 0 with
InvalidDimension before any work (spec sections 6 and 7).  The source entry
point GenerateWorld takes no such parameters, so only the claimed dimension
check is modelled, for comparison with the source. -/
def generateWorldSpecCheck (width height : ℤ) : Except GenError Unit :=
  if width ≤ 0 ∨ height ≤ 0 then .error .InvalidDimension else .ok ()

/-- C2 counterexample: the claimed parametrised entry point would reject
width 0 with InvalidDimension, but the source entry point takes no width,
height or seed parameter at all and has no error path: it unconditionally
produces the full fixed 128 x 128 grid (shown here for one choice of the
abstract sqrt, pow and jitter sources; the grid shape does not depend on
them). -/
theorem generateWorld_has_no_dimension_check :
    generateWorldSpecCheck 0 128 = Except.error GenError.InvalidDimension ∧
    (GenerateWorld id id (fun _ _ => (0, 0, 0))).length = 128 ∧
    ((GenerateWorld id id (fun _ _ => (0, 0, 0))).getD 0 []).length = 128 := by
  refine ⟨rfl, by simp [GenerateWorld, WORLD_HEIGHT], ?_⟩
  have h0 : (0 : ℕ) < WORLD_HEIGHT := by norm_num [WORLD_HEIGHT]
  simp [GenerateWorld, List.getD, List.getElem?_map, List.getElem?_range, h0,
    WORLD_HEIGHT, WORLD_WIDTH]

/-- C2 amended: the entry point takes no width, height or seed parameters;
its dimensions are the fixed positive constants WORLD_WIDTH = WORLD_HEIGHT
= 128, it has no error path, and every call returns a full grid in which
every coordinate (y, x) of the 128 x 128 range carries a tile whose stored
coordinates are exactly (x, y) (all-or-nothing, no partial result). -/
theorem generateWorld_full_fixed_grid (sq ph : ℚ → ℚ) (j : ℕ → ℕ → ℤ × ℤ × ℤ)
    (y x : ℕ) (hy : y < WORLD_HEIGHT) (hx : x < WORLD_WIDTH) :
    0 < WORLD_WIDTH ∧ 0 < WORLD_HEIGHT ∧
    (GenerateWorld sq ph j).length = WORLD_HEIGHT ∧
    ((GenerateWorld sq ph j).getD y []).length = WORLD_WIDTH ∧
    ((GenerateWorld sq ph j).getD y []).getD x default = tileAt sq ph j y x ∧
    (tileAt sq ph j y x).x = x ∧ (tileAt sq ph j y x).y = y := by
  have hrow : (GenerateWorld sq ph j).getD y []
      = (List.range WORLD_WIDTH).map fun x => tileAt sq ph j y x := by
    simp [GenerateWorld, List.getD, List.getElem?_map, List.getElem?_range, hy]
  refine ⟨by norm_num [WORLD_WIDTH], by norm_num [WORLD_HEIGHT],
    by simp [GenerateWorld], ?_, ?_, rfl, rfl⟩
  · rw [hrow]
    simp
  · rw [hrow]
    simp [List.getD, List.getElem?_map, List.getElem?_range, hx]

/-- Witness for C2 (amended) at cell (0, 0). -/
theorem generateWorld_full_fixed_grid_witness :
    0 < WORLD_HEIGHT ∧ 0 < WORLD_WIDTH ∧
    (0 < WORLD_WIDTH ∧ 0 < WORLD_HEIGHT ∧
     (GenerateWorld id id (fun _ _ => (0, 0, 0))).length = WORLD_HEIGHT ∧
     ((GenerateWorld id id (fun _ _ => (0, 0, 0))).getD 0 []).length = WORLD_WIDTH ∧
     ((GenerateWorld id id (fun _ _ => (0, 0, 0))).getD 0 []).getD 0 default
        = tileAt id id (fun _ _ => (0, 0, 0)) 0 0 ∧
     (tileAt id id (fun _ _ => (0, 0, 0)) 0 0).x = 0 ∧
     (tileAt id id (fun _ _ => (0, 0, 0)) 0 0).y = 0) :=
  ⟨by decide, by decide,
    generateWorld_full_fixed_grid id id (fun _ _ => (0, 0, 0)) 0 0 (by decide) (by decide)⟩

end DLands
